import Mathlib

/-!
Verification development for the katana-vmm GVM lifecycle daemon.

The Rust sources are shallowly embedded as Lean functions:
- the status model (`crates/katana-core/src/instance/state.rs`),
- the state store (`crates/katana-core/src/state/db.rs`),
- the process supervisor (`crates/katana-core/src/qemu/vm.rs`),
- the raw and managed VM wrappers
  (`crates/katana-core/src/qemu/vm_instance.rs`, `vm_managed.rs`),
- the daemon operation handlers
  (`crates/katana-daemon/src/api/operations.rs`, `api/instances.rs`).

External effects (spawning QEMU, signal delivery, QMP round-trips, wall
clocks) are passed in explicitly as oracle parameters, and each embedded
operation additionally returns the journal of records it saved to the
state store plus the trace of external actions it performed, so that
persistence and ordering properties can be stated.
-/

namespace KatanaVmm

/-- Status of a guest VM instance, from `InstanceStatus` in
`crates/katana-core/src/instance/state.rs`. -/
inductive InstanceStatus where
  | Created
  | Starting
  | Running
  | Pausing
  | Paused
  | Resuming
  | Suspending
  | Suspended
  | Stopping
  | Stopped
  | Failed (error : String)
deriving DecidableEq, Repr

/-- Embeds `InstanceStatus::can_pause` (state.rs). -/
def InstanceStatus.can_pause : InstanceStatus → Bool
  | .Running => true
  | _ => false

/-- Embeds `InstanceStatus::can_resume_from_pause` (state.rs). -/
def InstanceStatus.can_resume_from_pause : InstanceStatus → Bool
  | .Paused => true
  | _ => false

/-- Embeds `InstanceStatus::can_suspend` (state.rs). -/
def InstanceStatus.can_suspend : InstanceStatus → Bool
  | .Running => true
  | .Paused => true
  | _ => false

/-- Embeds `InstanceStatus::can_wake` (state.rs). -/
def InstanceStatus.can_wake : InstanceStatus → Bool
  | .Suspended => true
  | _ => false

/-- Embeds `InstanceStatus::can_reset` (state.rs). -/
def InstanceStatus.can_reset : InstanceStatus → Bool
  | .Running => true
  | .Paused => true
  | _ => false

/-- Embeds `InstanceStatus::can_stop` (state.rs). -/
def InstanceStatus.can_stop : InstanceStatus → Bool
  | .Running => true
  | .Paused => true
  | .Suspended => true
  | _ => false

/-- Embeds the `Display` implementation for `InstanceStatus` (state.rs). -/
def InstanceStatus.display : InstanceStatus → String
  | .Created => "created"
  | .Starting => "starting"
  | .Running => "running"
  | .Pausing => "pausing"
  | .Paused => "paused"
  | .Resuming => "resuming"
  | .Suspending => "suspending"
  | .Suspended => "suspended"
  | .Stopping => "stopping"
  | .Stopped => "stopped"
  | .Failed error => "failed: " ++ error

/-- C7: for every status `s`, `can_pause s` holds iff `s = Running`,
`can_resume_from_pause s` iff `s = Paused`, `can_suspend s` iff
`s ∈ {Running, Paused}`, `can_wake s` iff `s = Suspended`, `can_reset s` iff
`s ∈ {Running, Paused}`, and `can_stop s` iff
`s ∈ {Running, Paused, Suspended}`. -/
theorem c7_transition_predicates (s : InstanceStatus) :
    (s.can_pause = true ↔ s = .Running) ∧
    (s.can_resume_from_pause = true ↔ s = .Paused) ∧
    (s.can_suspend = true ↔ (s = .Running ∨ s = .Paused)) ∧
    (s.can_wake = true ↔ s = .Suspended) ∧
    (s.can_reset = true ↔ (s = .Running ∨ s = .Paused)) ∧
    (s.can_stop = true ↔ (s = .Running ∨ s = .Paused ∨ s = .Suspended)) := by
  cases s <;>
    simp [InstanceStatus.can_pause, InstanceStatus.can_resume_from_pause,
      InstanceStatus.can_suspend, InstanceStatus.can_wake,
      InstanceStatus.can_reset, InstanceStatus.can_stop]

/-- Modelled from the spec: the core crate's `InstanceConfig` definition (the
`instance` module file that declares it) is not under src/; the field set
follows §3 of the spec ("resource and boot configuration") and the
construction sites in `api/instances.rs` and the vm_managed.rs tests.
Paths are modelled as strings. -/
structure InstanceConfig where
  vcpus : Nat
  memory_mb : Nat
  storage_bytes : Nat
  rpc_port : Nat
  metrics_port : Option Nat
  tee_mode : Bool
  vcpu_type : String
  expected_measurement : Option String
  kernel_path : String
  initrd_path : String
  ovmf_path : Option String
  data_dir : String
  disk_image : Option String
  chain_id : Option String
  dev_mode : Bool
  block_time : Option Nat
  accounts : Option Nat
  disable_fee : Bool
  extra_args : List String
deriving DecidableEq, Repr

/-- Embeds `InstanceState` (state.rs): the persisted GVM record. Paths are
modelled as strings, timestamps as integers, the pid as an integer. -/
structure InstanceState where
  id : String
  name : String
  status : InstanceStatus
  config : InstanceConfig
  vm_pid : Option Int
  qmp_socket : Option String
  serial_log : Option String
  created_at : Int
  updated_at : Int
deriving DecidableEq, Repr

/-- Embeds `InstanceState::new` (state.rs); `now` stands for
`chrono::Utc::now().timestamp()`. -/
def InstanceState.new (id name : String) (config : InstanceConfig)
    (now : Int) : InstanceState :=
  { id := id
    name := name
    status := .Created
    config := config
    vm_pid := none
    qmp_socket := none
    serial_log := none
    created_at := now
    updated_at := now }

/-- Embeds `InstanceState::update_status` (state.rs): sets the status and
stamps `updated_at` with the current time. -/
def InstanceState.update_status (s : InstanceState) (status : InstanceStatus)
    (now : Int) : InstanceState :=
  { s with status := status, updated_at := now }

/-! ## State store

`StateDatabase` (crates/katana-core/src/state/db.rs) is embedded as a list
of rows (GVM records). `save_instance` keys on `id` (insert-or-update) and
`get_instance` looks up by `name`, exactly as the SQL in db.rs does. -/

/-- Typed store errors surfaced by db.rs (`HypervisorError` variants). -/
inductive DbError where
  | InstanceNotFound (name : String)
  | UniqueViolation
deriving DecidableEq, Repr

/-- Embeds `StateDatabase::save_instance` (db.rs). The row set is a list;
an existing row with the same `id` is updated (the SQL UPDATE writes every
column except `created_at` and stamps `updated_at` with the current time),
otherwise the record is inserted as given. Modelled from the spec: the
schema file `schema.sql` (embedded into db.rs at compile time) is not under
src/; per §4.1 of the spec it places a uniqueness constraint on `name`,
so a save that would leave two distinct ids with the same name fails with
a `UniqueViolation` (confirmed by the db.rs test
`test_duplicate_instance_name`). -/
def save_instance (now : Int) (store : List InstanceState)
    (s : InstanceState) : Except DbError (List InstanceState) :=
  if store.any fun r => decide (r.id = s.id) then
    if store.any fun r => decide (r.id ≠ s.id ∧ r.name = s.name) then
      .error .UniqueViolation
    else
      .ok (store.map fun r =>
        if r.id = s.id then
          { s with created_at := r.created_at, updated_at := now }
        else r)
  else
    if store.any fun r => decide (r.name = s.name) then
      .error .UniqueViolation
    else
      .ok (store ++ [s])

/-- Embeds `StateDatabase::get_instance` (db.rs): select the row whose
`name` column matches, or the typed `InstanceNotFound` error. -/
def get_instance (store : List InstanceState) (name : String) :
    Except DbError InstanceState :=
  match store.find? fun r => decide (r.name = name) with
  | some r => .ok r
  | none => .error (.InstanceNotFound name)

/-! ## Concrete example records used by witnesses and counterexamples -/

/-- Concrete resource/boot configuration (matching the literal scenario in
§8 of the spec: vcpus=2, memory="2G", storage="1G", port=55050). -/
def exConfig : InstanceConfig :=
  { vcpus := 2
    memory_mb := 2048
    storage_bytes := 1073741824
    rpc_port := 55050
    metrics_port := none
    tee_mode := false
    vcpu_type := "host"
    expected_measurement := none
    kernel_path := "/missing/vmlinuz"
    initrd_path := "/boot/initrd.img"
    ovmf_path := none
    data_dir := "/var/lib/katana/a"
    disk_image := none
    chain_id := none
    dev_mode := true
    block_time := none
    accounts := some 10
    disable_fee := true
    extra_args := [] }

/-- Concrete freshly created record (status `Created`, no pid). -/
def exR0 : InstanceState :=
  { id := "gvm-1"
    name := "a"
    status := .Created
    config := exConfig
    vm_pid := none
    qmp_socket := some "/var/lib/katana/a/qmp.sock"
    serial_log := some "/var/lib/katana/a/serial.log"
    created_at := 5
    updated_at := 5 }

/-- The record `exR0` with an in-memory `created_at` that differs from the
stored row's value, as a `save_instance` argument on the update path. -/
def exR1 : InstanceState :=
  { exR0 with status := .Running, vm_pid := some 7,
              created_at := 99, updated_at := 99 }

/-- Decidable equality for `Except` results, so that concrete runs of the
embedded store and operations can be checked by `decide`. -/
instance instDecidableEqExcept {ε α : Type} [DecidableEq ε] [DecidableEq α] :
    DecidableEq (Except ε α) := fun a b =>
  match a, b with
  | .ok x, .ok y =>
    if h : x = y then .isTrue (by rw [h])
    else .isFalse (by intro hc; injection hc; contradiction)
  | .error x, .error y =>
    if h : x = y then .isTrue (by rw [h])
    else .isFalse (by intro hc; injection hc; contradiction)
  | .ok _, .error _ => .isFalse (by intro hc; injection hc)
  | .error _, .ok _ => .isFalse (by intro hc; injection hc)

/-- Lookup after an id-keyed update: the row found by name is the updated
record, whose `created_at` is the old row's value. -/
theorem find?_map_update (store : List InstanceState) (r : InstanceState)
    (now : Int)
    (h1 : ∃ x ∈ store, x.id = r.id)
    (h2 : ∀ x ∈ store, ¬(x.id ≠ r.id ∧ x.name = r.name)) :
    ∃ old, old ∈ store ∧ old.id = r.id ∧
      (store.map fun x =>
          if x.id = r.id then
            { r with created_at := x.created_at, updated_at := now }
          else x).find? (fun x => decide (x.name = r.name))
        = some { r with created_at := old.created_at, updated_at := now } := by
  induction store with
  | nil =>
    obtain ⟨x, hx, _⟩ := h1
    exact absurd hx (List.not_mem_nil x)
  | cons x xs ih =>
    by_cases hx : x.id = r.id
    · refine ⟨x, List.mem_cons_self x xs, hx, ?_⟩
      simp only [List.map_cons, if_pos hx]
      exact List.find?_cons_of_pos _ (by simp)
    · have hname : ¬(x.name = r.name) := fun hn =>
        h2 x (List.mem_cons_self x xs) ⟨hx, hn⟩
      have h1' : ∃ y ∈ xs, y.id = r.id := by
        obtain ⟨y, hy, hyid⟩ := h1
        rcases List.mem_cons.mp hy with hyx | hyxs
        · exact absurd (hyx ▸ hyid) hx
        · exact ⟨y, hyxs, hyid⟩
      obtain ⟨old, hmem, hid, hfind⟩ :=
        ih h1' fun z hz => h2 z (List.mem_cons_of_mem x hz)
      refine ⟨old, List.mem_cons_of_mem x hmem, hid, ?_⟩
      simp only [List.map_cons, if_neg hx]
      rw [List.find?_cons_of_neg _ (by simp [hname])]
      exact hfind

/-- Lookup after an insert: the appended record is found by name when no
existing row carries that name. -/
theorem find?_append_insert (store : List InstanceState) (r : InstanceState)
    (h3 : ∀ x ∈ store, ¬(x.name = r.name)) :
    (store ++ [r]).find? (fun x => decide (x.name = r.name)) = some r := by
  induction store with
  | nil => simp
  | cons x xs ih =>
    rw [List.cons_append,
      List.find?_cons_of_neg _ (by simp [h3 x (List.mem_cons_self x xs)])]
    exact ih fun z hz => h3 z (List.mem_cons_of_mem x hz)

/-- Result of the update-path save in the C8 counterexample: `updated_at`
is stamped with the save time but `created_at` keeps the stored value. -/
def exR1up : InstanceState :=
  { exR1 with created_at := 5, updated_at := 20 }

/-- C8 counterexample: saving a record whose in-memory `created_at` differs
from the stored row's value (the update path) and fetching it back returns
a record that differs from the saved one in `created_at`, because the SQL
UPDATE in `save_instance` writes every column except `created_at`. -/
theorem c8_counterexample :
    save_instance 20 [exR0] exR1 = .ok [exR1up] ∧
    get_instance [exR1up] exR1.name = .ok exR1up ∧
    exR1up.created_at = 5 ∧ exR1.created_at = 99 := by
  refine ⟨by decide, by decide, rfl, rfl⟩

/-- C8 amended: after a successful `save_instance` of `r`, `get_instance`
on `r.name` returns a record equal to `r` in every field except the
timestamps: on the insert path both timestamps are `r`'s own, while on the
update path `updated_at` is stamped with the save time and `created_at`
retains the previously stored row's value. -/
theorem c8_save_get_roundtrip (now : Int) (store store' : List InstanceState)
    (r : InstanceState)
    (hsave : save_instance now store r = .ok store') :
    ∃ r', get_instance store' r.name = .ok r' ∧
      r'.id = r.id ∧ r'.name = r.name ∧ r'.status = r.status ∧
      r'.config = r.config ∧ r'.vm_pid = r.vm_pid ∧
      r'.qmp_socket = r.qmp_socket ∧ r'.serial_log = r.serial_log ∧
      ((r'.created_at = r.created_at ∧ r'.updated_at = r.updated_at) ∨
        (∃ old, old ∈ store ∧ old.id = r.id ∧
          r'.created_at = old.created_at ∧ r'.updated_at = now)) := by
  unfold save_instance at hsave
  by_cases h1 : (store.any fun x => decide (x.id = r.id)) = true
  · rw [if_pos h1] at hsave
    by_cases h2 : (store.any fun x => decide (x.id ≠ r.id ∧ x.name = r.name)) = true
    · rw [if_pos h2] at hsave
      exact Except.noConfusion hsave
    · rw [if_neg h2] at hsave
      have h1' : ∃ x ∈ store, x.id = r.id := by
        simpa [List.any_eq_true] using h1
      have h2' : ∀ x ∈ store, ¬(x.id ≠ r.id ∧ x.name = r.name) := by
        intro x hx hcon
        exact h2 (by
          simp only [List.any_eq_true]
          exact ⟨x, hx, by simpa using hcon⟩)
      obtain ⟨old, hmem, hid, hfind⟩ := find?_map_update store r now h1' h2'
      have hstore : store' = store.map fun x =>
          if x.id = r.id then
            { r with created_at := x.created_at, updated_at := now }
          else x := by
        injection hsave with h
        exact h.symm
      refine ⟨{ r with created_at := old.created_at, updated_at := now },
        ?_, rfl, rfl, rfl, rfl, rfl, rfl, rfl,
        Or.inr ⟨old, hmem, hid, rfl, rfl⟩⟩
      rw [hstore]
      unfold get_instance
      rw [hfind]
  · rw [if_neg h1] at hsave
    by_cases h3 : (store.any fun x => decide (x.name = r.name)) = true
    · rw [if_pos h3] at hsave
      exact Except.noConfusion hsave
    · rw [if_neg h3] at hsave
      have h3' : ∀ x ∈ store, ¬(x.name = r.name) := by
        intro x hx hcon
        exact h3 (by
          simp only [List.any_eq_true]
          exact ⟨x, hx, by simpa using hcon⟩)
      have hstore : store' = store ++ [r] := by
        injection hsave with h
        exact h.symm
      refine ⟨r, ?_, rfl, rfl, rfl, rfl, rfl, rfl, rfl, Or.inl ⟨rfl, rfl⟩⟩
      rw [hstore]
      unfold get_instance
      rw [find?_append_insert store r h3']

/-- Witness for C8: a concrete insert followed by a fetch. -/
theorem c8_witness :
    ∃ r', get_instance [exR0] exR0.name = .ok r' ∧
      r'.id = exR0.id ∧ r'.name = exR0.name ∧ r'.status = exR0.status ∧
      r'.config = exR0.config ∧ r'.vm_pid = exR0.vm_pid ∧
      r'.qmp_socket = exR0.qmp_socket ∧ r'.serial_log = exR0.serial_log ∧
      ((r'.created_at = exR0.created_at ∧ r'.updated_at = exR0.updated_at) ∨
        (∃ old, old ∈ ([] : List InstanceState) ∧ old.id = exR0.id ∧
          r'.created_at = old.created_at ∧ r'.updated_at = 10)) :=
  c8_save_get_roundtrip 10 [] [exR0] exR0 (by decide)

/-! ## Process supervisor

`VmManager` (crates/katana-core/src/qemu/vm.rs) is embedded over an
explicit process world: signal-delivery outcomes and a liveness function
sampled at the 500 ms poll cadence of `stop_vm`. -/

/-- External actions the embedded code performs, in order: signals sent to
the hypervisor process, QMP commands issued over the control socket, and
invocations of `launch_vm` (which spawn the subprocess). -/
inductive VmEvent where
  | spawn
  | sigterm (pid : Int)
  | sigkill (pid : Int)
  | qmpStop
  | qmpCont
  | qmpSuspend
  | qmpWake
  | qmpReset
deriving DecidableEq, Repr

/-- Whether an event is a QMP control-socket command. -/
def VmEvent.isQmp : VmEvent → Bool
  | .qmpStop => true
  | .qmpCont => true
  | .qmpSuspend => true
  | .qmpWake => true
  | .qmpReset => true
  | _ => false

/-- Oracle describing the hypervisor process during one `stop_vm` run:
whether the SIGTERM and SIGKILL `kill` syscalls succeed (they fail with
ESRCH exactly when the process does not exist), the error strings they
produce, the liveness probe sampled at the k-th 500 ms poll, and liveness
after the SIGKILL-plus-200 ms-wait path. -/
structure ProcWorld where
  termSendOk : Bool
  termErr : String
  killSendOk : Bool
  killErr : String
  aliveAt : Nat → Bool
  aliveAfterKill : Bool

/-- Index of the first poll (out of `n`) at which the liveness probe
reports the process dead. `stop_vm` polls every 500 ms while
`elapsed.as_secs < timeout_secs`, i.e. `2 * timeout_secs` times. -/
def firstDead (alive : Nat → Bool) (n : Nat) : Option Nat :=
  (List.range n).find? fun k => !alive k

/-- Embeds `VmManager::stop_vm` (vm.rs): send SIGTERM (failure to send is
an error), poll liveness at 500 ms cadence for up to `timeout_secs`
seconds and return success as soon as the process is observed dead;
otherwise fall through to `kill_vm`, which sends SIGKILL (failure to send
is an error), waits 200 ms and returns success without re-probing.
Returns the result together with the signal trace. -/
def VmManager.stop_vm (w : ProcWorld) (pid : Int) (timeout_secs : Nat) :
    Except String Unit × List VmEvent :=
  if ¬w.termSendOk then
    (.error ("Failed to send SIGTERM: " ++ w.termErr), [.sigterm pid])
  else
    match firstDead w.aliveAt (2 * timeout_secs) with
    | some _ => (.ok (), [.sigterm pid])
    | none =>
      if ¬w.killSendOk then
        (.error ("Failed to send SIGKILL: " ++ w.killErr),
          [.sigterm pid, .sigkill pid])
      else
        (.ok (), [.sigterm pid, .sigkill pid])

/-- Liveness of the target process at the moment `stop_vm` returns: at the
first poll if SIGTERM could not be sent, at the poll that observed death
if one did, and after the SIGKILL path otherwise. -/
def aliveOnReturn (w : ProcWorld) (timeout_secs : Nat) : Bool :=
  if ¬w.termSendOk then w.aliveAt 0
  else
    match firstDead w.aliveAt (2 * timeout_secs) with
    | some k => w.aliveAt k
    | none => w.aliveAfterKill

/-- World of a process that is already dead when `stop_vm` is invoked: the
SIGTERM `kill` syscall fails with ESRCH and every liveness probe reports
the process gone. -/
def deadWorld : ProcWorld :=
  { termSendOk := false
    termErr := "ESRCH"
    killSendOk := false
    killErr := "ESRCH"
    aliveAt := fun _ => false
    aliveAfterKill := false }

/-- C6 counterexample: terminating an already-dead process. The SIGTERM
send fails, so `stop_vm` returns an error, although the process is not
alive at the moment of return — refuting "returns success if and only if
the target process is no longer alive at the moment it returns". -/
theorem c6_counterexample :
    ¬(((VmManager.stop_vm deadWorld 7 30).1 = .ok ()) ↔
      aliveOnReturn deadWorld 30 = false) := by
  decide

/-- C6 amended: `stop_vm` sends the graceful-termination signal (an error
if the send itself fails, even when the process is already dead), polls
liveness at 500 ms cadence for up to `timeout_secs` seconds, then sends
the uncatchable signal and waits briefly; it returns success iff SIGTERM
was sent and either some poll within the grace period observed the process
dead or the SIGKILL send succeeded — liveness is not re-probed after
SIGKILL. -/
theorem c6_terminate_success_iff (w : ProcWorld) (pid : Int) (g : Nat) :
    (VmManager.stop_vm w pid g).1 = .ok () ↔
      (w.termSendOk = true ∧
        ((firstDead w.aliveAt (2 * g)).isSome = true ∨ w.killSendOk = true)) := by
  unfold VmManager.stop_vm
  by_cases hterm : w.termSendOk = true
  · simp only [hterm, not_true_eq_false, if_false]
    cases hfd : firstDead w.aliveAt (2 * g) with
    | some k => simp [hfd]
    | none =>
      by_cases hkill : w.killSendOk = true
      · simp [hkill, hfd]
      · simp only [Bool.not_eq_true] at hkill
        simp [hkill, hfd]
  · simp only [Bool.not_eq_true] at hterm
    simp [hterm]

/-! ## Daemon operation handlers

The handlers of `crates/katana-daemon/src/api/operations.rs`. Each takes
the record loaded from the store (`state.db.get_instance`) and the
outcomes of its external effects, and returns its response, the journal of
records it passed to `save_instance` (in order), and the trace of external
actions it performed. The status fields are assigned directly (`.status =`
in Rust), which does not stamp `updated_at`. -/

/-- Embeds `ApiError` of the daemon's error module: the typed errors the
operation handlers return. -/
inductive ApiError where
  | NotFound (msg : String)
  | Conflict (msg : String)
  | BadRequest (msg : String)
  | Internal (msg : String)
deriving DecidableEq, Repr

/-- Outcome of `start_instance`: a normal response, a typed error, or a
panic (the Rust handler calls `Option::unwrap` on `qmp_socket` and
`serial_log`). -/
inductive StartOutcome where
  | ok (s : InstanceState)
  | err (e : ApiError)
  | panicked
deriving DecidableEq, Repr

/-- Embeds `start_instance` (operations.rs). Parameters: the loaded
record, whether `config.kernel_path` and `config.initrd_path` exist on the
filesystem, and the outcome of `VmManager::launch_vm` (the launched pid,
or the error string). -/
def start_instance (r : InstanceState) (kernelExists initrdExists : Bool)
    (launchRes : Except String Int) :
    StartOutcome × List InstanceState × List VmEvent :=
  match r.status with
  | .Running => (.ok r, [], [])
  | .Starting =>
    (.err (.Conflict ("Instance \x27" ++ r.name ++ "\x27 is already starting")),
      [], [])
  | _ =>
    if ¬kernelExists then
      (.err (.Internal ("Kernel not found at " ++ r.config.kernel_path)),
        [], [])
    else if ¬initrdExists then
      (.err (.Internal ("Initrd not found at " ++ r.config.initrd_path)),
        [], [])
    else
      let r1 := { r with status := .Starting }
      match r.qmp_socket, r.serial_log with
      | some _, some _ =>
        match launchRes with
        | .error e =>
          let msg := "Failed to launch VM: " ++ e
          (.err (.Internal msg),
            [r1, { r1 with status := .Failed msg }], [.spawn])
        | .ok pid =>
          let r2 := { r1 with status := .Running, vm_pid := some pid }
          (.ok r2, [r1, r2], [.spawn])
      | _, _ => (.panicked, [r1], [])

/-- Embeds `stop_instance` (operations.rs). The external effect is
`VmManager::stop_vm(pid, 30)`, described by the process world `w`. -/
def stop_instance (r : InstanceState) (w : ProcWorld) :
    Except ApiError InstanceState × List InstanceState × List VmEvent :=
  match r.status with
  | .Stopped => (.ok r, [], [])
  | .Created => (.ok r, [], [])
  | .Failed _ => (.ok r, [], [])
  | .Stopping =>
    (.error (.Conflict ("Instance \x27" ++ r.name ++ "\x27 is already stopping")),
      [], [])
  | .Running | .Paused | .Suspended =>
    match r.vm_pid with
    | none =>
      (.error (.Internal ("Instance \x27" ++ r.name ++ "\x27 has no PID")), [], [])
    | some pid =>
      let r1 := { r with status := .Stopping }
      let sv := VmManager.stop_vm w pid 30
      match sv.1 with
      | .error e =>
        (.error (.Internal ("Failed to stop VM: " ++ e)),
          [r1, { r1 with status := .Running }], sv.2)
      | .ok _ =>
        let r2 := { r1 with status := .Stopped, vm_pid := none }
        (.ok r2, [r1, r2], sv.2)
  | _ =>
    (.error (.BadRequest ("Cannot stop instance \x27" ++ r.name ++
        "\x27 from state: " ++ r.status.display)), [], [])

/-- Embeds `pause_instance` (operations.rs). `pauseRes` is the outcome of
`VmManager::pause_vm` (the QMP `stop` command). -/
def pause_instance (r : InstanceState) (pauseRes : Except String Unit) :
    Except ApiError InstanceState × List InstanceState × List VmEvent :=
  if r.status = .Paused then (.ok r, [], [])
  else if r.status = .Pausing then
    (.error (.Conflict ("Instance \x27" ++ r.name ++ "\x27 is already pausing")),
      [], [])
  else if ¬r.status.can_pause then
    (.error (.BadRequest ("Cannot pause instance \x27" ++ r.name ++
        "\x27 from state: " ++ r.status.display)), [], [])
  else
    match r.qmp_socket with
    | none =>
      (.error (.Internal ("Instance \x27" ++ r.name ++ "\x27 has no QMP socket")),
        [], [])
    | some _ =>
      let r1 := { r with status := .Pausing }
      match pauseRes with
      | .error e =>
        (.error (.Internal ("Failed to pause VM: " ++ e)),
          [r1, { r1 with status := .Running }], [.qmpStop])
      | .ok _ =>
        let r2 := { r1 with status := .Paused }
        (.ok r2, [r1, r2], [.qmpStop])

/-- Embeds `resume_instance` (operations.rs). `res` is the outcome of
`VmManager::wake_vm` (when the previous status was Suspended) or
`VmManager::resume_vm` (otherwise). -/
def resume_instance (r : InstanceState) (res : Except String Unit) :
    Except ApiError InstanceState × List InstanceState × List VmEvent :=
  if r.status = .Running then (.ok r, [], [])
  else if r.status = .Resuming then
    (.error (.Conflict ("Instance \x27" ++ r.name ++ "\x27 is already resuming")),
      [], [])
  else if ¬(r.status.can_resume_from_pause || r.status.can_wake) then
    (.error (.BadRequest ("Cannot resume instance \x27" ++ r.name ++
        "\x27 from state: " ++ r.status.display)), [], [])
  else
    match r.qmp_socket with
    | none =>
      (.error (.Internal ("Instance \x27" ++ r.name ++ "\x27 has no QMP socket")),
        [], [])
    | some _ =>
      let prev := r.status
      let r1 := { r with status := .Resuming }
      let ev := if prev = .Suspended then VmEvent.qmpWake else VmEvent.qmpCont
      match res with
      | .error e =>
        (.error (.Internal ("Failed to resume VM: " ++ e)),
          [r1, { r1 with status := prev }], [ev])
      | .ok _ =>
        let r2 := { r1 with status := .Running }
        (.ok r2, [r1, r2], [ev])

/-- Embeds `suspend_instance` (operations.rs). `resumeRes` is the outcome
of the `continue` issued first when the instance is Paused; `suspendRes`
is the outcome of `VmManager::suspend_vm` (QMP `system-suspend`). -/
def suspend_instance (r : InstanceState)
    (resumeRes suspendRes : Except String Unit) :
    Except ApiError InstanceState × List InstanceState × List VmEvent :=
  if r.status = .Suspended then (.ok r, [], [])
  else if r.status = .Suspending then
    (.error (.Conflict ("Instance \x27" ++ r.name ++ "\x27 is already suspending")),
      [], [])
  else if ¬r.status.can_suspend then
    (.error (.BadRequest ("Cannot suspend instance \x27" ++ r.name ++
        "\x27 from state: " ++ r.status.display)), [], [])
  else
    match r.qmp_socket with
    | none =>
      (.error (.Internal ("Instance \x27" ++ r.name ++ "\x27 has no QMP socket")),
        [], [])
    | some _ =>
      let prev := r.status
      let pre : Except ApiError Unit × List VmEvent :=
        if prev = .Paused then
          match resumeRes with
          | .error e =>
            (.error (.Internal ("Failed to resume before suspend: " ++ e)),
              [.qmpCont])
          | .ok _ => (.ok (), [.qmpCont])
        else (.ok (), [])
      match pre with
      | (.error e, evs) => (.error e, [], evs)
      | (.ok _, evs) =>
        let r1 := { r with status := .Suspending }
        match suspendRes with
        | .error e =>
          (.error (.Internal
              ("Failed to suspend VM (guest may not support ACPI): " ++ e)),
            [r1, { r1 with status := prev }], evs ++ [.qmpSuspend])
        | .ok _ =>
          let r2 := { r1 with status := .Suspended }
          (.ok r2, [r1, r2], evs ++ [.qmpSuspend])

/-- Embeds `reset_instance` (operations.rs). `resumeRes` is the outcome of
the `continue` issued first when the instance is Paused (journalled as
Resuming); `resetRes` is the outcome of `VmManager::reset_vm`
(QMP `system-reset`). -/
def reset_instance (r : InstanceState)
    (resumeRes resetRes : Except String Unit) :
    Except ApiError InstanceState × List InstanceState × List VmEvent :=
  if ¬r.status.can_reset then
    (.error (.BadRequest ("Cannot reset instance \x27" ++ r.name ++
        "\x27 from state: " ++ r.status.display)), [], [])
  else
    match r.qmp_socket with
    | none =>
      (.error (.Internal ("Instance \x27" ++ r.name ++ "\x27 has no QMP socket")),
        [], [])
    | some _ =>
      let prev := r.status
      if prev = .Paused then
        let rA := { r with status := .Resuming }
        match resumeRes with
        | .error e =>
          (.error (.Internal ("Failed to resume before reset: " ++ e)),
            [rA, { rA with status := prev }], [.qmpCont])
        | .ok _ =>
          let r1 := { r with status := .Starting }
          match resetRes with
          | .error e =>
            let msg := "Failed to reset VM: " ++ e
            (.error (.Internal msg),
              [rA, r1, { r1 with status := .Failed msg }],
              [.qmpCont, .qmpReset])
          | .ok _ =>
            let r2 := { r1 with status := .Running }
            (.ok r2, [rA, r1, r2], [.qmpCont, .qmpReset])
      else
        let r1 := { r with status := .Starting }
        match resetRes with
        | .error e =>
          let msg := "Failed to reset VM: " ++ e
          (.error (.Internal msg),
            [r1, { r1 with status := .Failed msg }], [.qmpReset])
        | .ok _ =>
          let r2 := { r1 with status := .Running }
          (.ok r2, [r1, r2], [.qmpReset])

/-- Embeds the record construction of `create_instance`
(api/instances.rs, lines 113-119): `InstanceState::new` followed by
setting `serial_log` and `qmp_socket` to the instance's storage paths,
before the record is saved. -/
def create_instance (id name : String) (config : InstanceConfig)
    (serialPath qmpPath : String) (now : Int) : InstanceState :=
  { InstanceState.new id name config now with
      serial_log := some serialPath, qmp_socket := some qmpPath }

/-- The record holding the persisted state after an operation: the last
record saved to the store, or the original record when the operation never
saved. -/
def persistedRecord (saved : List InstanceState) (orig : InstanceState) :
    InstanceState :=
  saved.foldl (fun _ s => s) orig

/-- Status of the persisted record after an operation. -/
def persistedStatus (saved : List InstanceState) (orig : InstanceState) :
    InstanceStatus :=
  (persistedRecord saved orig).status

/-! ## Raw and managed VM wrappers -/

/-- Embeds `SevSnpConfig` (qemu/config.rs usage sites): the
confidential-compute firmware parameters. -/
structure SevSnpConfig where
  cbitpos : Nat
  reduced_phys_bits : Nat
  vcpu_type : String
deriving DecidableEq, Repr

/-- Embeds `QemuConfig` (qemu/config.rs usage sites): the computed
hypervisor invocation parameters. Paths are modelled as strings. -/
structure QemuConfig where
  memory_mb : Nat
  vcpus : Nat
  cpu_type : String
  kernel_path : String
  initrd_path : String
  bios_path : Option String
  kernel_cmdline : String
  rpc_port : Nat
  disk_image : Option String
  qmp_socket : String
  serial_log : String
  pid_file : String
  sev_snp : Option SevSnpConfig
  enable_kvm : Bool
deriving DecidableEq, Repr

/-- Embeds `Vm` (qemu/vm_instance.rs): a single QEMU VM instance with its
configuration and the recorded pid (`None` when not launched). -/
structure Vm where
  config : QemuConfig
  pid : Option Int
deriving DecidableEq, Repr

/-- Embeds `Vm::new` (vm_instance.rs). -/
def Vm.new (config : QemuConfig) : Vm :=
  { config := config, pid := none }

/-- Embeds `Vm::launch` (vm_instance.rs). Parameters: whether the spawned
command exits successfully, its captured stderr, and the result of reading
and parsing the pid-file. Returns the result, the VM value after the call,
and the external actions performed (`spawn` marks the subprocess being
spawned). -/
def Vm.launch (vm : Vm) (spawnOk : Bool) (stderr : String)
    (pidRead : Except String Int) :
    Except String Unit × Vm × List VmEvent :=
  match vm.pid with
  | some _ => (.error "VM is already running", vm, [])
  | none =>
    if ¬spawnOk then
      (.error ("QEMU launch failed: " ++ stderr), vm, [.spawn])
    else
      match pidRead with
      | .error e => (.error e, vm, [.spawn])
      | .ok p => (.ok (), { vm with pid := some p }, [.spawn])

/-- Embeds `Vm::attach` (vm_instance.rs). Parameters: the pid to attach
to, whether `verify_qemu_process` succeeds (the process exists, is a QEMU
binary and references this VM's QMP socket), and whether the QMP
connectivity check succeeds. -/
def Vm.attach (vm : Vm) (p : Int) (verifyOk qmpOk : Bool) :
    Except String Unit × Vm × List VmEvent :=
  match vm.pid with
  | some _ => (.error "VM is already running or attached", vm, [])
  | none =>
    if ¬verifyOk then
      (.error ("Process verification failed for pid " ++ toString p), vm, [])
    else if ¬qmpOk then
      (.error "Failed to connect to QMP socket", vm, [])
    else
      (.ok (), { vm with pid := some p }, [])

/-- Embeds `ManagedVm::stop` (qemu/vm_managed.rs): journal `Stopping`
(via `update_status`, which stamps `updated_at`), run `Vm::stop`, and on
success — or on failure when the process is observed not running — persist
`Stopped` with the pid cleared; on failure with the process still running,
mark `Failed`. The error of `Vm::stop` is returned in both failure cases.
Parameters: the record fetched from the store, the timestamps of the two
`update_status` calls, the `Vm::stop` outcome, and the liveness probe
after the failed stop. -/
def ManagedVm.stop (r : InstanceState) (now1 now2 : Int)
    (stopRes : Except String Unit) (isRunningAfter : Bool) :
    Except String Unit × List InstanceState :=
  let r1 := r.update_status .Stopping now1
  match stopRes with
  | .ok _ =>
    let r2 := { r1.update_status .Stopped now2 with vm_pid := none }
    (.ok (), [r1, r2])
  | .error e =>
    if ¬isRunningAfter then
      let r2 := { r1.update_status .Stopped now2 with vm_pid := none }
      (.error e, [r1, r2])
    else
      (.error e,
        [r1, r1.update_status (.Failed ("Stop failed: " ++ e)) now2])

/-! ## Derived predicates and further example records -/

/-- The "active" statuses of the spec's pid invariant (§3 invariant 2):
Starting, Running, Pausing, Paused, Resuming, Suspending, Suspended,
Stopping. -/
def InstanceStatus.isActive : InstanceStatus → Bool
  | .Starting => true
  | .Running => true
  | .Pausing => true
  | .Paused => true
  | .Resuming => true
  | .Suspending => true
  | .Suspended => true
  | .Stopping => true
  | _ => false

/-- Whether a status is the `Failed` variant. -/
def InstanceStatus.isFailed : InstanceStatus → Bool
  | .Failed _ => true
  | _ => false

/-- The pid/status invariant of the spec on one record: `process_pid` is
present iff the status is active. -/
def pidStatusOkB (s : InstanceState) : Bool :=
  s.vm_pid.isSome == s.status.isActive

/-- The amended per-saved-record invariant: the pid/status invariant, or
one of the two journalling exceptions the code actually produces — the
`Starting` journal written by start before the pid is known, and a
`Failed` record written while the pid was still present. -/
def savedOkB (s : InstanceState) : Bool :=
  pidStatusOkB s ||
  (decide (s.status = .Starting) && decide (s.vm_pid = none)) ||
  (s.status.isFailed && s.vm_pid.isSome)

/-- Concrete running record (pid 7). -/
def exRunning : InstanceState :=
  { exR0 with status := .Running, vm_pid := some 7 }

/-- Concrete paused record (pid 7). -/
def exPaused : InstanceState :=
  { exR0 with status := .Paused, vm_pid := some 7 }

/-- Concrete created record lacking the control-socket path. -/
def exNoSock : InstanceState :=
  { exR0 with qmp_socket := none }

/-- World of a process that dies promptly after the graceful signal. -/
def promptWorld : ProcWorld :=
  { termSendOk := true
    termErr := ""
    killSendOk := true
    killErr := ""
    aliveAt := fun _ => false
    aliveAfterKill := false }

/-! ## Claim C1: start on a missing kernel -/

/-- C1 counterexample: starting a Created GVM whose kernel path does not
exist returns an error, but the handler returns before any store write —
nothing is saved, so the persisted status remains `Created`, not
`Failed{reason}` as the claim states. -/
theorem c1_counterexample :
    (start_instance exR0 false true (.ok 7)).1
      = .err (.Internal "Kernel not found at /missing/vmlinuz") ∧
    (start_instance exR0 false true (.ok 7)).2.1 = [] ∧
    (start_instance exR0 false true (.ok 7)).2.2 = [] ∧
    persistedStatus (start_instance exR0 false true (.ok 7)).2.1 exR0
      = .Created ∧
    (persistedRecord (start_instance exR0 false true (.ok 7)).2.1
        exR0).vm_pid = none := by
  decide

/-- C1 amended: starting a GVM whose kernel path does not exist (and whose
status is neither Running nor Starting) returns the missing-path error, no
hypervisor process is spawned, and nothing is written to the store — the
record keeps the status it had, and no `Failed{reason}` status is
persisted. -/
theorem c1_start_missing_kernel (r : InstanceState) (initrdExists : Bool)
    (launchRes : Except String Int)
    (h1 : r.status ≠ .Running) (h2 : r.status ≠ .Starting) :
    start_instance r false initrdExists launchRes
      = (.err (.Internal ("Kernel not found at " ++ r.config.kernel_path)),
          [], []) := by
  obtain ⟨id, name, status, config, pid, qmp, slog, ca, ua⟩ := r
  cases status <;> simp_all [start_instance]

/-- Witness for C1, at a concrete Created record. -/
theorem c1_witness :
    start_instance exR0 false true (.error "spawn failed")
      = (.err (.Internal ("Kernel not found at " ++ exR0.config.kernel_path)),
          [], []) :=
  c1_start_missing_kernel exR0 true (.error "spawn failed")
    (by decide) (by decide)

/-! ## Claim C2: failure rewind for pause/resume/suspend/wake/reset -/

/-- C2 counterexample: a reset on a Running GVM whose QMP `system-reset`
fails persists `Failed{reason}` — it does not rewind to the Running status
held before the `Starting` intermediate was journalled. -/
theorem c2_counterexample :
    (reset_instance exRunning (.ok ()) (.error "boom")).1
      = .error (.Internal "Failed to reset VM: boom") ∧
    persistedStatus (reset_instance exRunning (.ok ()) (.error "boom")).2.1
        exRunning
      = .Failed "Failed to reset VM: boom" ∧
    exRunning.status = .Running := by
  decide

/-- C2 amended: when the external effect fails after the intermediate
status was journalled, pause, resume (including wake) and suspend rewind
the persisted status to exactly the status held before the intermediate
was written; reset does not — it persists `Failed{reason}`. -/
theorem c2_failure_rewind_except_reset (r : InstanceState) (e q : String)
    (hq : r.qmp_socket = some q) :
    (r.status.can_pause = true →
      persistedStatus (pause_instance r (.error e)).2.1 r = r.status) ∧
    ((r.status.can_resume_from_pause || r.status.can_wake) = true →
      persistedStatus (resume_instance r (.error e)).2.1 r = r.status) ∧
    (r.status.can_suspend = true →
      persistedStatus (suspend_instance r (.ok ()) (.error e)).2.1 r
        = r.status) ∧
    (r.status.can_reset = true →
      persistedStatus (reset_instance r (.ok ()) (.error e)).2.1 r
        = .Failed ("Failed to reset VM: " ++ e)) := by
  obtain ⟨id, name, status, config, pid, qmp, slog, ca, ua⟩ := r
  cases hq
  cases status <;>
    simp [pause_instance, resume_instance, suspend_instance, reset_instance,
      persistedStatus, persistedRecord, InstanceStatus.can_pause,
      InstanceStatus.can_resume_from_pause, InstanceStatus.can_wake,
      InstanceStatus.can_suspend, InstanceStatus.can_reset]

/-- Witness for C2, at a concrete Running record with a failing reset. -/
theorem c2_witness :
    persistedStatus (reset_instance exRunning (.ok ()) (.error "io")).2.1
        exRunning
      = .Failed ("Failed to reset VM: " ++ "io") :=
  (c2_failure_rewind_except_reset exRunning "io" "/var/lib/katana/a/qmp.sock"
    rfl).2.2.2 rfl

/-! ## Claim C3: stop whose termination effect fails on a dead process -/

/-- C3 counterexample: stopping a Running GVM whose process is already
dead (`aliveOnReturn` is false and the SIGTERM send fails with ESRCH).
The daemon handler reports an error — not success — rewinds the persisted
status to `Running`, and keeps `process_pid`. -/
theorem c3_counterexample :
    (stop_instance exRunning deadWorld).1
      = .error (.Internal
          "Failed to stop VM: Failed to send SIGTERM: ESRCH") ∧
    persistedStatus (stop_instance exRunning deadWorld).2.1 exRunning
      = .Running ∧
    (persistedRecord (stop_instance exRunning deadWorld).2.1
        exRunning).vm_pid = some 7 ∧
    aliveOnReturn deadWorld 30 = false := by
  decide

/-- C3 amended: when the termination effect fails but the process is no
longer alive, `ManagedVm::stop` persists `Stopped` and clears the pid but
still returns the error (not success); the daemon's `stop_instance` does
not probe liveness at all — on any `stop_vm` failure it rewinds the
persisted status to `Running`, keeps the pid, and reports the error. -/
theorem c3_stop_dead_process (r : InstanceState) (now1 now2 : Int)
    (e : String) (w : ProcWorld) (p : Int)
    (hterm : w.termSendOk = false) (hr : r.status = .Running)
    (hp : r.vm_pid = some p) :
    ((ManagedVm.stop r now1 now2 (.error e) false).1 = .error e ∧
      persistedStatus (ManagedVm.stop r now1 now2 (.error e) false).2 r
        = .Stopped ∧
      (persistedRecord (ManagedVm.stop r now1 now2 (.error e) false).2
          r).vm_pid = none) ∧
    ((stop_instance r w).1
        = .error (.Internal
            ("Failed to stop VM: "
              ++ ("Failed to send SIGTERM: " ++ w.termErr))) ∧
      persistedStatus (stop_instance r w).2.1 r = .Running ∧
      (persistedRecord (stop_instance r w).2.1 r).vm_pid = some p) := by
  obtain ⟨id, name, status, config, pid, qmp, slog, ca, ua⟩ := r
  cases hr
  cases hp
  simp [ManagedVm.stop, stop_instance, VmManager.stop_vm, hterm,
    InstanceState.update_status, persistedStatus, persistedRecord]

/-- Witness for C3, at a concrete Running record and an already-dead
process world. -/
theorem c3_witness :
    ((ManagedVm.stop exRunning 50 51 (.error "gone") false).1
        = .error "gone" ∧
      persistedStatus (ManagedVm.stop exRunning 50 51 (.error "gone")
          false).2 exRunning = .Stopped ∧
      (persistedRecord (ManagedVm.stop exRunning 50 51 (.error "gone")
          false).2 exRunning).vm_pid = none) ∧
    ((stop_instance exRunning deadWorld).1
        = .error (.Internal
            ("Failed to stop VM: "
              ++ ("Failed to send SIGTERM: " ++ deadWorld.termErr))) ∧
      persistedStatus (stop_instance exRunning deadWorld).2.1 exRunning
        = .Running ∧
      (persistedRecord (stop_instance exRunning deadWorld).2.1
          exRunning).vm_pid = some 7) :=
  c3_stop_dead_process exRunning 50 51 "gone" deadWorld 7 rfl rfl rfl

/-! ## Claim C5: stop on Paused/Suspended and the control socket -/

/-- Signal trace of `stop_vm`: it only ever consists of the SIGTERM, and
possibly the SIGKILL, sent to the target pid. -/
theorem stop_vm_events (w : ProcWorld) (pid : Int) (g : Nat) :
    (VmManager.stop_vm w pid g).2 = [.sigterm pid] ∨
    (VmManager.stop_vm w pid g).2 = [.sigterm pid, .sigkill pid] := by
  unfold VmManager.stop_vm
  by_cases hterm : w.termSendOk = true
  · simp only [hterm, not_true_eq_false, if_false]
    cases hfd : firstDead w.aliveAt (2 * g) with
    | some k => simp
    | none =>
      by_cases hkill : w.killSendOk = true
      · simp [hkill]
      · simp only [Bool.not_eq_true] at hkill
        simp [hkill]
  · simp only [Bool.not_eq_true] at hterm
    simp [hterm]

/-- C5 counterexample: stopping a Paused GVM issues no control-socket
command at all — in particular no `continue` before the termination
signal; the trace is exactly the SIGTERM. -/
theorem c5_counterexample :
    exPaused.status = .Paused ∧
    (stop_instance exPaused promptWorld).2.2 = [.sigterm 7] ∧
    ((stop_instance exPaused promptWorld).2.2.filter VmEvent.isQmp)
      = [] := by
  decide

/-- C5 amended: for every stop operation, whatever the current status
(Paused and Suspended included), the handler never issues any
control-socket command — the external trace consists only of termination
signals. -/
theorem c5_stop_issues_no_qmp (r : InstanceState) (w : ProcWorld) :
    ((stop_instance r w).2.2.all fun ev => !ev.isQmp) = true := by
  obtain ⟨id, name, status, config, pid, qmp, slog, ca, ua⟩ := r
  cases status <;> cases pid <;>
    try (simp [stop_instance, VmEvent.isQmp]; done)
  all_goals rename_i p
  all_goals cases hsv : (VmManager.stop_vm w p 30).1 <;>
    simp [stop_instance, hsv, VmEvent.isQmp] <;>
    rcases stop_vm_events w p 30 with hev | hev <;>
      simp [hev, VmEvent.isQmp]

/-! ## Claim C9: create persists both paths; start unwraps them -/

/-- C9: every record built by the create operation carries both the
control-socket path and the serial-log path; the start handler unwraps
these two options, so invoking start on a persisted record missing either
one — once it passes the status and boot-component guards — panics instead
of returning a typed error. -/
theorem c9_create_paths_start_unwraps (id name : String)
    (config : InstanceConfig) (sp qp : String) (now : Int)
    (r : InstanceState) (launchRes : Except String Int)
    (h1 : r.status ≠ .Running) (h2 : r.status ≠ .Starting)
    (h3 : r.qmp_socket = none ∨ r.serial_log = none) :
    ((create_instance id name config sp qp now).qmp_socket.isSome = true ∧
      (create_instance id name config sp qp now).serial_log.isSome
        = true) ∧
    (start_instance r true true launchRes).1 = .panicked := by
  refine ⟨⟨rfl, rfl⟩, ?_⟩
  obtain ⟨rid, rname, status, rconfig, pid, qmp, slog, ca, ua⟩ := r
  cases status <;> cases qmp <;> cases slog <;>
    simp_all [start_instance]

/-- Witness for C9, at a concrete record lacking the control-socket
path. -/
theorem c9_witness :
    ((create_instance "gvm-1" "a" exConfig "/s.log" "/q.sock" 5).qmp_socket.isSome
        = true ∧
      (create_instance "gvm-1" "a" exConfig "/s.log" "/q.sock" 5).serial_log.isSome
        = true) ∧
    (start_instance exNoSock true true (.ok 7)).1 = .panicked :=
  c9_create_paths_start_unwraps "gvm-1" "a" exConfig "/s.log" "/q.sock" 5
    exNoSock (.ok 7) (by decide) (by decide) (Or.inl rfl)

/-! ## Claim C10: launch and attach refuse a VM with a recorded pid -/

/-- C10: for every `Vm` that already has a recorded pid, both `launch`
and `attach` fail with an error, spawn no process, and leave the recorded
pid (indeed the whole value) unchanged. -/
theorem c10_launch_attach_require_no_pid (vm : Vm) (q p : Int)
    (h : vm.pid = some q) (spawnOk : Bool) (stderr : String)
    (pidRead : Except String Int) (verifyOk qmpOk : Bool) :
    Vm.launch vm spawnOk stderr pidRead
      = (.error "VM is already running", vm, []) ∧
    Vm.attach vm p verifyOk qmpOk
      = (.error "VM is already running or attached", vm, []) := by
  obtain ⟨config, pid⟩ := vm
  cases h
  exact ⟨rfl, rfl⟩

/-- Concrete attached VM value used by the C10 witness. -/
def exVm : Vm :=
  { config :=
      { memory_mb := 2048
        vcpus := 2
        cpu_type := "host"
        kernel_path := "/test/vmlinuz"
        initrd_path := "/test/initrd.img"
        bios_path := none
        kernel_cmdline := "console=ttyS0"
        rpc_port := 5050
        disk_image := none
        qmp_socket := "/tmp/qmp.sock"
        serial_log := "/tmp/serial.log"
        pid_file := "/tmp/qemu.pid"
        sev_snp := none
        enable_kvm := true }
    pid := some 12345 }

/-- Witness for C10, at a concrete VM with pid 12345. -/
theorem c10_witness :
    Vm.launch exVm true "" (.ok 67890)
      = (.error "VM is already running", exVm, []) ∧
    Vm.attach exVm 67890 true true
      = (.error "VM is already running or attached", exVm, []) :=
  c10_launch_attach_require_no_pid exVm 12345 67890 rfl true ""
    (.ok 67890) true true

/-! ## Claim C4: the pid/status invariant at every save point -/

/-- C4 counterexample: the very first record the start handler saves is
the `Starting` journal, written before the pid is known — its status is
in the active set but `process_pid` is absent, refuting the "present iff
active" invariant at that save point. -/
theorem c4_counterexample :
    (start_instance exR0 true true (.ok 7)).2.1.head?
      = some { exR0 with status := .Starting } ∧
    InstanceStatus.isActive .Starting = true ∧
    ({ exR0 with status := .Starting } : InstanceState).vm_pid = none ∧
    pidStatusOkB { exR0 with status := .Starting } = false := by
  decide

/-- Start saves only records satisfying the amended invariant. -/
theorem savedOk_start (r : InstanceState) (hr : pidStatusOkB r = true)
    (kE iE : Bool) (launchRes : Except String Int) :
    ((start_instance r kE iE launchRes).2.1.all savedOkB) = true := by
  obtain ⟨id, name, status, config, pid, qmp, slog, ca, ua⟩ := r
  cases status <;> cases pid <;> cases kE <;> cases iE <;>
    cases qmp <;> cases slog <;> cases launchRes <;>
      simp_all [start_instance, savedOkB, pidStatusOkB,
        InstanceStatus.isActive, InstanceStatus.isFailed]

/-- Stop saves only records satisfying the amended invariant. -/
theorem savedOk_stop (r : InstanceState) (hr : pidStatusOkB r = true)
    (w : ProcWorld) :
    ((stop_instance r w).2.1.all savedOkB) = true := by
  obtain ⟨id, name, status, config, pid, qmp, slog, ca, ua⟩ := r
  cases status <;> cases pid <;>
    try (simp [stop_instance, savedOkB, pidStatusOkB,
      InstanceStatus.isActive, InstanceStatus.isFailed]; done)
  all_goals rename_i p
  all_goals cases hsv : (VmManager.stop_vm w p 30).1 <;>
    simp_all [stop_instance, hsv, savedOkB, pidStatusOkB,
      InstanceStatus.isActive, InstanceStatus.isFailed]

/-- Pause saves only records satisfying the amended invariant. -/
theorem savedOk_pause (r : InstanceState) (hr : pidStatusOkB r = true)
    (res : Except String Unit) :
    ((pause_instance r res).2.1.all savedOkB) = true := by
  obtain ⟨id, name, status, config, pid, qmp, slog, ca, ua⟩ := r
  cases status <;> cases pid <;> cases qmp <;> cases res <;>
    simp_all [pause_instance, savedOkB, pidStatusOkB,
      InstanceStatus.isActive, InstanceStatus.isFailed,
      InstanceStatus.can_pause]

/-- Resume saves only records satisfying the amended invariant. -/
theorem savedOk_resume (r : InstanceState) (hr : pidStatusOkB r = true)
    (res : Except String Unit) :
    ((resume_instance r res).2.1.all savedOkB) = true := by
  obtain ⟨id, name, status, config, pid, qmp, slog, ca, ua⟩ := r
  cases status <;> cases pid <;> cases qmp <;> cases res <;>
    simp_all [resume_instance, savedOkB, pidStatusOkB,
      InstanceStatus.isActive, InstanceStatus.isFailed,
      InstanceStatus.can_resume_from_pause, InstanceStatus.can_wake]

/-- Suspend saves only records satisfying the amended invariant. -/
theorem savedOk_suspend (r : InstanceState) (hr : pidStatusOkB r = true)
    (resumeRes suspendRes : Except String Unit) :
    ((suspend_instance r resumeRes suspendRes).2.1.all savedOkB) = true := by
  obtain ⟨id, name, status, config, pid, qmp, slog, ca, ua⟩ := r
  cases status <;> cases pid <;> cases qmp <;>
    cases resumeRes <;> cases suspendRes <;>
      simp_all [suspend_instance, savedOkB, pidStatusOkB,
        InstanceStatus.isActive, InstanceStatus.isFailed,
        InstanceStatus.can_suspend]

/-- Reset saves only records satisfying the amended invariant. -/
theorem savedOk_reset (r : InstanceState) (hr : pidStatusOkB r = true)
    (resumeRes resetRes : Except String Unit) :
    ((reset_instance r resumeRes resetRes).2.1.all savedOkB) = true := by
  obtain ⟨id, name, status, config, pid, qmp, slog, ca, ua⟩ := r
  cases status <;> cases pid <;> cases qmp <;>
    cases resumeRes <;> cases resetRes <;>
      simp_all [reset_instance, savedOkB, pidStatusOkB,
        InstanceStatus.isActive, InstanceStatus.isFailed,
        InstanceStatus.can_reset]

/-- C4 amended: provided the loaded record satisfies the pid/status
invariant, every record the operation handlers save satisfies it as well,
with exactly two exceptions the code produces: the `Starting` journal
written by start before its pid is known (status active, pid absent), and
a `Failed` record persisted while the pid was still present (written by a
failed reset). Create's record satisfies the invariant outright. -/
theorem c4_pid_active_invariant (r : InstanceState)
    (hr : pidStatusOkB r = true) :
    (∀ kE iE launchRes,
      ((start_instance r kE iE launchRes).2.1.all savedOkB) = true) ∧
    (∀ w, ((stop_instance r w).2.1.all savedOkB) = true) ∧
    (∀ res, ((pause_instance r res).2.1.all savedOkB) = true) ∧
    (∀ res, ((resume_instance r res).2.1.all savedOkB) = true) ∧
    (∀ res1 res2,
      ((suspend_instance r res1 res2).2.1.all savedOkB) = true) ∧
    (∀ res1 res2,
      ((reset_instance r res1 res2).2.1.all savedOkB) = true) ∧
    (∀ id name config sp qp now,
      savedOkB (create_instance id name config sp qp now) = true) :=
  ⟨fun kE iE l => savedOk_start r hr kE iE l,
    fun w => savedOk_stop r hr w,
    fun res => savedOk_pause r hr res,
    fun res => savedOk_resume r hr res,
    fun res1 res2 => savedOk_suspend r hr res1 res2,
    fun res1 res2 => savedOk_reset r hr res1 res2,
    fun _ _ _ _ _ _ => rfl⟩

/-- Witness for C4, at a concrete Running record. -/
theorem c4_witness :
    ((pause_instance exRunning (.error "io")).2.1.all savedOkB) = true :=
  (c4_pid_active_invariant exRunning rfl).2.2.1 (.error "io")

end KatanaVmm
